import Mathlib

/-!
Shallow embedding of the command-sequence decoding and code-synthesis core of
linux-mdss-dsi-panel-driver-generator: the relevant parts of `mipi.py`
(DCS command table, transaction classifier, synthesis functions), `panel.py`
(`CommandSequence.__init__` decode loop), `wrap.py` (line formatter) and
`driver.py` (`msleep`, the command loop of `generate_commands`, and the
per-sequence generation loop of `generate_driver`).

Byte strings are modelled as `List Nat`, Python `str` as `String`
(`List Char` for the line-formatter core, where structural reasoning is
needed).  Python exceptions are modelled with `Except PyErr`.
-/

deriving instance DecidableEq for Except

/-- The Python exceptions the core can raise. -/
inductive PyErr where
  | valueError (msg : String)
  | indexError
  | runtimeError
  | stopIteration
deriving DecidableEq

/-! ## mipi.py: hex formatting helpers -/

/-- Hex digit character, lower case (as Python `format(..., 'x')`). -/
def hexDigitChar (n : Nat) : Char :=
  if n < 10 then Char.ofNat (48 + n) else Char.ofNat (87 + n)

def hexDigitsCore : Nat → Nat → List Char
  | 0, _ => []
  | fuel + 1, n =>
    if n < 16 then [hexDigitChar n]
    else hexDigitsCore fuel (n / 16) ++ [hexDigitChar (n % 16)]

def hexDigits (n : Nat) : List Char := hexDigitsCore (n + 1) n

/-- `mipi._hex_fill`: the f-string `{i:#0{size * 2 + 2}x}` — `0x` followed by the
lower-case hex digits of `i`, zero-padded on the left to `size * 2` digits. -/
def hexFill (i : Nat) (size : Nat) : String :=
  let d := hexDigits i
  ⟨'0' :: 'x' :: (List.replicate (size * 2 - d.length) '0' ++ d)⟩

/-- `mipi._get_params_hex`. -/
def getParamsHex (b : List Nat) : List String := b.map (fun i => hexFill i 1)

inductive ByteOrder where
  | big
  | little
deriving DecidableEq

/-- Python `int.from_bytes(b, byteorder)`. -/
def intFromBytes (bo : ByteOrder) (b : List Nat) : Nat :=
  match bo with
  | .big => b.foldl (fun acc x => acc * 256 + x) 0
  | .little => b.reverse.foldl (fun acc x => acc * 256 + x) 0

/-- `zip(*[iter(b)] * size)`: consecutive chunks of exactly `size` elements,
dropping a shorter remainder. -/
def chunksExact (size : Nat) (b : List Nat) : List (List Nat) :=
  if h : 0 < size ∧ size ≤ b.length then
    b.take size :: chunksExact size (b.drop size)
  else []
termination_by b.length
decreasing_by
  simp only [List.length_drop]
  omega

/-- `mipi._get_params_int(size, byteorder)`. -/
def getParamsInt (size : Nat) (bo : ByteOrder) (b : List Nat) : List String :=
  if b.length < size then [hexFill (intFromBytes bo b) size]
  else (chunksExact size b).map (fun t => hexFill (intFromBytes bo t) size)

/-- The payload codecs attached to DCS command table entries:  the default
`_get_params_hex`, `_get_params_int(size, byteorder)`, and
`TearMode.get_params`. -/
inductive Codec where
  | hex
  | intBytes (size : Nat) (bo : ByteOrder)
  | tear
deriving DecidableEq

/-- Evaluate a codec on the trailing payload bytes.  `TearMode.get_params`
raises `ValueError` for a byte other than 0/1 (caught by `DCSCommand.find`)
and `IndexError` on an empty input (not caught). -/
def Codec.eval : Codec → List Nat → Except PyErr (List String)
  | .hex, b => .ok (getParamsHex b)
  | .intBytes size bo, b => .ok (getParamsInt size bo b)
  | .tear, [] => .error .indexError
  | .tear, x :: _ =>
    if x = 0 then .ok ["MIPI_DSI_DCS_TEAR_MODE_VBLANK"]
    else if x = 1 then .ok ["MIPI_DSI_DCS_TEAR_MODE_VHBLANK"]
    else .error (.valueError (toString x ++ " is not a valid TearMode"))

/-! ## wrap.py: the line formatter -/

/-- `wrap._width`: `len(s) + s.count('\t') * 7`. -/
def width (s : List Char) : Nat := s.length + s.count '\t' * 7

/-- The continuation indent built in `wrap.join`:
`'\t' * (align // 8) + ' ' * (align % 8)`. -/
def indentOf (align : Nat) : List Char :=
  List.replicate (align / 8) '\t' ++ List.replicate (align % 8) ' '

/-- The loop of `wrap.join`, carried state `(s, line, prefix)`; `i` is the
`enumerate` index, and the last item uses `end` as its separator. -/
def joinAux (ind : List Char) (wrapR : Int) (force : Int) (endS sep : List Char) :
    List (List Char) → Nat → List Char → List Char → List Char → List Char
  | [], _, s, line, pfx => s ++ pfx ++ line
  | itm :: rest, i, s, line, pfx =>
    let sp := if rest = [] then endS else sep
    if line = [] then
      joinAux ind wrapR force endS sep rest (i + 1) s (itm ++ sp) pfx
    else if force = (i : Int) ∨
        (width line : Int) + (itm.length : Int) + (sp.length : Int) > wrapR then
      joinAux ind wrapR force endS sep rest (i + 1) (s ++ pfx ++ line ++ ['\n']) (itm ++ sp) ind
    else
      joinAux ind wrapR force endS sep rest (i + 1) s (line ++ [' '] ++ itm ++ sp) pfx

/-- `wrap.join` on character lists. -/
def wrapJoinCore (pfx sep endS : List Char) (items : List (List Char)) (force : Int)
    (w : Nat) : List Char :=
  let s := pfx ++ List.intercalate (sep ++ [' ']) items ++ endS
  if width s ≤ w then s
  else joinAux (indentOf (width pfx)) ((w : Int) - (width pfx : Int)) force endS sep items 0 [] [] pfx

/-- `wrap.join` on strings. -/
def wrapJoin (pfx sep endS : String) (items : List String) (force : Int) (w : Nat) : String :=
  ⟨wrapJoinCore pfx.data sep.data endS.data (items.map String.data) force w⟩

/-- Refinement of `joinAux` that returns the produced lines (without the
newline characters) instead of the flat string; `acc` holds the completed
lines.  Used to reason about the line structure of `wrap.join`'s output. -/
def joinLines (ind : List Char) (wrapR : Int) (force : Int) (endS sep : List Char) :
    List (List Char) → Nat → List (List Char) → List Char → List Char → List (List Char)
  | [], _, acc, line, pfx => acc ++ [pfx ++ line]
  | itm :: rest, i, acc, line, pfx =>
    let sp := if rest = [] then endS else sep
    if line = [] then
      joinLines ind wrapR force endS sep rest (i + 1) acc (itm ++ sp) pfx
    else if force = (i : Int) ∨
        (width line : Int) + (itm.length : Int) + (sp.length : Int) > wrapR then
      joinLines ind wrapR force endS sep rest (i + 1) (acc ++ [pfx ++ line]) (itm ++ sp) ind
    else
      joinLines ind wrapR force endS sep rest (i + 1) acc (line ++ [' '] ++ itm ++ sp) pfx

/-- The lines of `wrap.join`'s wrapped (multi-line) rendering. -/
def wrapJoinLines (pfx sep endS : List Char) (items : List (List Char)) (force : Int)
    (w : Nat) : List (List Char) :=
  joinLines (indentOf (width pfx)) ((w : Int) - (width pfx : Int)) force endS sep items 0 [] [] pfx

/-- Join lines with newline characters. -/
def joinWithNL : List (List Char) → List Char
  | [] => []
  | [l] => l
  | l :: l' :: ls => l ++ '\n' :: joinWithNL (l' :: ls)

/-- Completed lines as rendered inside `joinAux`'s state `s`: each followed by
a newline. -/
def renderAcc (acc : List (List Char)) : List Char := (acc.map (fun l => l ++ ['\n'])).flatten

/-- A piece of text containing no newline. -/
def noNL (s : List Char) : Prop := '\n' ∉ s

/-! ## mipi.py: the DCS command table -/

structure DCSCommand where
  name : String
  value : Nat
  nargs : List Nat
  method : Option String
  codec : Codec
deriving DecidableEq

def DCSCommand.NOP : DCSCommand := ⟨"NOP", 0x00, [0], some "mipi_dsi_dcs_nop", .hex⟩
def DCSCommand.SOFT_RESET : DCSCommand := ⟨"SOFT_RESET", 0x01, [0], some "mipi_dsi_dcs_soft_reset", .hex⟩
def DCSCommand.ENTER_SLEEP_MODE : DCSCommand := ⟨"ENTER_SLEEP_MODE", 0x10, [0], some "mipi_dsi_dcs_enter_sleep_mode", .hex⟩
def DCSCommand.EXIT_SLEEP_MODE : DCSCommand := ⟨"EXIT_SLEEP_MODE", 0x11, [0], some "mipi_dsi_dcs_exit_sleep_mode", .hex⟩
def DCSCommand.ENTER_PARTIAL_MODE : DCSCommand := ⟨"ENTER_PARTIAL_MODE", 0x12, [0], none, .hex⟩
def DCSCommand.ENTER_NORMAL_MODE : DCSCommand := ⟨"ENTER_NORMAL_MODE", 0x13, [0], none, .hex⟩
def DCSCommand.EXIT_INVERT_MODE : DCSCommand := ⟨"EXIT_INVERT_MODE", 0x20, [0], none, .hex⟩
def DCSCommand.ENTER_INVERT_MODE : DCSCommand := ⟨"ENTER_INVERT_MODE", 0x21, [0], none, .hex⟩
def DCSCommand.SET_GAMMA_CURVE : DCSCommand := ⟨"SET_GAMMA_CURVE", 0x26, [1], none, .hex⟩
def DCSCommand.SET_DISPLAY_OFF : DCSCommand := ⟨"SET_DISPLAY_OFF", 0x28, [0], some "mipi_dsi_dcs_set_display_off", .hex⟩
def DCSCommand.SET_DISPLAY_ON : DCSCommand := ⟨"SET_DISPLAY_ON", 0x29, [0], some "mipi_dsi_dcs_set_display_on", .hex⟩
def DCSCommand.SET_COLUMN_ADDRESS : DCSCommand := ⟨"SET_COLUMN_ADDRESS", 0x2A, [4], some "mipi_dsi_dcs_set_column_address", .intBytes 2 .big⟩
def DCSCommand.SET_PAGE_ADDRESS : DCSCommand := ⟨"SET_PAGE_ADDRESS", 0x2B, [4], some "mipi_dsi_dcs_set_page_address", .intBytes 2 .big⟩
def DCSCommand.WRITE_MEMORY_START : DCSCommand := ⟨"WRITE_MEMORY_START", 0x2C, [], none, .hex⟩
def DCSCommand.WRITE_LUT : DCSCommand := ⟨"WRITE_LUT", 0x2D, [], none, .hex⟩
def DCSCommand.READ_MEMORY_START : DCSCommand := ⟨"READ_MEMORY_START", 0x2E, [], none, .hex⟩
def DCSCommand.SET_PARTIAL_ROWS : DCSCommand := ⟨"SET_PARTIAL_ROWS", 0x30, [], none, .hex⟩
def DCSCommand.SET_PARTIAL_COLUMNS : DCSCommand := ⟨"SET_PARTIAL_COLUMNS", 0x31, [], none, .hex⟩
def DCSCommand.SET_SCROLL_AREA : DCSCommand := ⟨"SET_SCROLL_AREA", 0x33, [6], none, .hex⟩
def DCSCommand.SET_TEAR_OFF : DCSCommand := ⟨"SET_TEAR_OFF", 0x34, [0], some "mipi_dsi_dcs_set_tear_off", .hex⟩
def DCSCommand.SET_TEAR_ON : DCSCommand := ⟨"SET_TEAR_ON", 0x35, [1], some "mipi_dsi_dcs_set_tear_on", .tear⟩
def DCSCommand.SET_ADDRESS_MODE : DCSCommand := ⟨"SET_ADDRESS_MODE", 0x36, [1], none, .hex⟩
def DCSCommand.SET_SCROLL_START : DCSCommand := ⟨"SET_SCROLL_START", 0x37, [2], none, .hex⟩
def DCSCommand.EXIT_IDLE_MODE : DCSCommand := ⟨"EXIT_IDLE_MODE", 0x38, [0], none, .hex⟩
def DCSCommand.ENTER_IDLE_MODE : DCSCommand := ⟨"ENTER_IDLE_MODE", 0x39, [0], none, .hex⟩
def DCSCommand.SET_PIXEL_FORMAT : DCSCommand := ⟨"SET_PIXEL_FORMAT", 0x3A, [1], some "mipi_dsi_dcs_set_pixel_format", .hex⟩
def DCSCommand.WRITE_MEMORY_CONTINUE : DCSCommand := ⟨"WRITE_MEMORY_CONTINUE", 0x3C, [], none, .hex⟩
def DCSCommand.SET_3D_CONTROL : DCSCommand := ⟨"SET_3D_CONTROL", 0x3D, [], none, .hex⟩
def DCSCommand.READ_MEMORY_CONTINUE : DCSCommand := ⟨"READ_MEMORY_CONTINUE", 0x3E, [], none, .hex⟩
def DCSCommand.SET_VSYNC_TIMING : DCSCommand := ⟨"SET_VSYNC_TIMING", 0x40, [], none, .hex⟩
def DCSCommand.SET_TEAR_SCANLINE : DCSCommand := ⟨"SET_TEAR_SCANLINE", 0x44, [2], some "mipi_dsi_dcs_set_tear_scanline", .intBytes 2 .big⟩
def DCSCommand.GET_SCANLINE : DCSCommand := ⟨"GET_SCANLINE", 0x45, [], none, .hex⟩
def DCSCommand.SET_DISPLAY_BRIGHTNESS : DCSCommand := ⟨"SET_DISPLAY_BRIGHTNESS", 0x51, [1, 2], some "mipi_dsi_dcs_set_display_brightness", .intBytes 2 .little⟩
def DCSCommand.WRITE_CONTROL_DISPLAY : DCSCommand := ⟨"WRITE_CONTROL_DISPLAY", 0x53, [1], none, .hex⟩
def DCSCommand.WRITE_POWER_SAVE : DCSCommand := ⟨"WRITE_POWER_SAVE", 0x55, [1], none, .hex⟩
def DCSCommand.SET_CABC_MIN_BRIGHTNESS : DCSCommand := ⟨"SET_CABC_MIN_BRIGHTNESS", 0x5E, [], none, .hex⟩
def DCSCommand.READ_DDB_START : DCSCommand := ⟨"READ_DDB_START", 0xA1, [], none, .hex⟩
def DCSCommand.READ_PPS_START : DCSCommand := ⟨"READ_PPS_START", 0xA2, [], none, .hex⟩
def DCSCommand.READ_DDB_CONTINUE : DCSCommand := ⟨"READ_DDB_CONTINUE", 0xA8, [], none, .hex⟩
def DCSCommand.READ_PPS_CONTINUE : DCSCommand := ⟨"READ_PPS_CONTINUE", 0xA9, [], none, .hex⟩

def dcsCommands : List DCSCommand :=
  [DCSCommand.NOP, DCSCommand.SOFT_RESET, DCSCommand.ENTER_SLEEP_MODE,
   DCSCommand.EXIT_SLEEP_MODE, DCSCommand.ENTER_PARTIAL_MODE, DCSCommand.ENTER_NORMAL_MODE,
   DCSCommand.EXIT_INVERT_MODE, DCSCommand.ENTER_INVERT_MODE, DCSCommand.SET_GAMMA_CURVE,
   DCSCommand.SET_DISPLAY_OFF, DCSCommand.SET_DISPLAY_ON, DCSCommand.SET_COLUMN_ADDRESS,
   DCSCommand.SET_PAGE_ADDRESS, DCSCommand.WRITE_MEMORY_START, DCSCommand.WRITE_LUT,
   DCSCommand.READ_MEMORY_START, DCSCommand.SET_PARTIAL_ROWS, DCSCommand.SET_PARTIAL_COLUMNS,
   DCSCommand.SET_SCROLL_AREA, DCSCommand.SET_TEAR_OFF, DCSCommand.SET_TEAR_ON,
   DCSCommand.SET_ADDRESS_MODE, DCSCommand.SET_SCROLL_START, DCSCommand.EXIT_IDLE_MODE,
   DCSCommand.ENTER_IDLE_MODE, DCSCommand.SET_PIXEL_FORMAT, DCSCommand.WRITE_MEMORY_CONTINUE,
   DCSCommand.SET_3D_CONTROL, DCSCommand.READ_MEMORY_CONTINUE, DCSCommand.SET_VSYNC_TIMING,
   DCSCommand.SET_TEAR_SCANLINE, DCSCommand.GET_SCANLINE, DCSCommand.SET_DISPLAY_BRIGHTNESS,
   DCSCommand.WRITE_CONTROL_DISPLAY, DCSCommand.WRITE_POWER_SAVE,
   DCSCommand.SET_CABC_MIN_BRIGHTNESS, DCSCommand.READ_DDB_START, DCSCommand.READ_PPS_START,
   DCSCommand.READ_DDB_CONTINUE, DCSCommand.READ_PPS_CONTINUE]

/-- `DCSCommand._DUMB_ALLOWED`. -/
def dcsDumbAllowed : List DCSCommand :=
  [DCSCommand.ENTER_SLEEP_MODE, DCSCommand.EXIT_SLEEP_MODE,
   DCSCommand.SET_DISPLAY_ON, DCSCommand.SET_DISPLAY_OFF]

/-- The enum `description` property: `name.lower().replace('_', ' ')`. -/
def descriptionOf (name : String) : String :=
  ⟨name.data.map (fun c => if c = '_' then ' ' else c.toLower)⟩

/-- The `DCSCommand.identifier` property. -/
def identifierOf (name : String) : String := "MIPI_DCS_" ++ name

/-- `DCSCommand.find(payload, dumb)`.  `payload[0]` on an empty payload raises
`IndexError`, which the surrounding `try` (catching only `ValueError`) does not
intercept.  A missing table entry, an argument-count mismatch, and a codec
`ValueError` each yield `None` ("unmatched"). -/
def DCSCommand.find (payload : List Nat) (dumb : Bool) : Except PyErr (Option DCSCommand) :=
  match payload with
  | [] => .error .indexError
  | b0 :: rest =>
    match dcsCommands.find? (fun x => x.value == b0) with
    | none => .ok none
    | some dcs =>
      if dumb ∧ dcs ∉ dcsDumbAllowed then .ok none
      else if dcs.nargs ≠ [] ∧ rest.length ∉ dcs.nargs then .ok none
      else
        match Codec.eval dcs.codec rest with
        | .error (.valueError _) => .ok none
        | .error e => .error e
        | .ok _ => .ok (some dcs)

/-! ## mipi.py: the transaction classifier table and synthesis -/

/-- The generator function attached to a `Transaction` entry. -/
inductive GenStrategy where
  | fallback
  | peripheral
  | genericWrite
  | dcsWrite
  | nullPacket
deriving DecidableEq

structure Transaction where
  name : String
  value : Nat
  maxArgs : Int
  gen : GenStrategy
deriving DecidableEq

def Transaction.V_SYNC_START : Transaction := ⟨"V_SYNC_START", 0x01, -1, .fallback⟩
def Transaction.V_SYNC_END : Transaction := ⟨"V_SYNC_END", 0x11, -1, .fallback⟩
def Transaction.H_SYNC_START : Transaction := ⟨"H_SYNC_START", 0x21, -1, .fallback⟩
def Transaction.H_SYNC_END : Transaction := ⟨"H_SYNC_END", 0x31, -1, .fallback⟩
def Transaction.COLOR_MODE_OFF : Transaction := ⟨"COLOR_MODE_OFF", 0x02, -1, .fallback⟩
def Transaction.COLOR_MODE_ON : Transaction := ⟨"COLOR_MODE_ON", 0x12, -1, .fallback⟩
def Transaction.SHUTDOWN_PERIPHERAL : Transaction := ⟨"SHUTDOWN_PERIPHERAL", 0x22, 0, .peripheral⟩
def Transaction.TURN_ON_PERIPHERAL : Transaction := ⟨"TURN_ON_PERIPHERAL", 0x32, 0, .peripheral⟩
def Transaction.GENERIC_SHORT_WRITE_0_PARAM : Transaction := ⟨"GENERIC_SHORT_WRITE_0_PARAM", 0x03, 0, .genericWrite⟩
def Transaction.GENERIC_SHORT_WRITE_1_PARAM : Transaction := ⟨"GENERIC_SHORT_WRITE_1_PARAM", 0x13, 1, .genericWrite⟩
def Transaction.GENERIC_SHORT_WRITE_2_PARAM : Transaction := ⟨"GENERIC_SHORT_WRITE_2_PARAM", 0x23, 2, .genericWrite⟩
def Transaction.GENERIC_READ_REQUEST_0_PARAM : Transaction := ⟨"GENERIC_READ_REQUEST_0_PARAM", 0x04, -1, .fallback⟩
def Transaction.GENERIC_READ_REQUEST_1_PARAM : Transaction := ⟨"GENERIC_READ_REQUEST_1_PARAM", 0x14, -1, .fallback⟩
def Transaction.GENERIC_READ_REQUEST_2_PARAM : Transaction := ⟨"GENERIC_READ_REQUEST_2_PARAM", 0x24, -1, .fallback⟩
def Transaction.DCS_SHORT_WRITE : Transaction := ⟨"DCS_SHORT_WRITE", 0x05, 0, .dcsWrite⟩
def Transaction.DCS_SHORT_WRITE_PARAM : Transaction := ⟨"DCS_SHORT_WRITE_PARAM", 0x15, 1, .dcsWrite⟩
def Transaction.DCS_READ : Transaction := ⟨"DCS_READ", 0x06, -1, .fallback⟩
def Transaction.DCS_COMPRESSION_MODE : Transaction := ⟨"DCS_COMPRESSION_MODE", 0x07, -1, .fallback⟩
def Transaction.PPS_LONG_WRITE : Transaction := ⟨"PPS_LONG_WRITE", 0x0A, -1, .fallback⟩
def Transaction.SET_MAXIMUM_RETURN_PACKET_SIZE : Transaction := ⟨"SET_MAXIMUM_RETURN_PACKET_SIZE", 0x37, -1, .fallback⟩
def Transaction.END_OF_TRANSMISSION : Transaction := ⟨"END_OF_TRANSMISSION", 0x08, -1, .fallback⟩
def Transaction.NULL_PACKET : Transaction := ⟨"NULL_PACKET", 0x09, -1, .nullPacket⟩
def Transaction.BLANKING_PACKET : Transaction := ⟨"BLANKING_PACKET", 0x19, -1, .fallback⟩
def Transaction.GENERIC_LONG_WRITE : Transaction := ⟨"GENERIC_LONG_WRITE", 0x29, -1, .genericWrite⟩
def Transaction.DCS_LONG_WRITE : Transaction := ⟨"DCS_LONG_WRITE", 0x39, -1, .dcsWrite⟩
def Transaction.LOOSELY_PACKED_PIXEL_STREAM_YCBCR20 : Transaction := ⟨"LOOSELY_PACKED_PIXEL_STREAM_YCBCR20", 0x0c, -1, .fallback⟩
def Transaction.PACKED_PIXEL_STREAM_YCBCR24 : Transaction := ⟨"PACKED_PIXEL_STREAM_YCBCR24", 0x1c, -1, .fallback⟩
def Transaction.PACKED_PIXEL_STREAM_YCBCR16 : Transaction := ⟨"PACKED_PIXEL_STREAM_YCBCR16", 0x2c, -1, .fallback⟩
def Transaction.PACKED_PIXEL_STREAM_30 : Transaction := ⟨"PACKED_PIXEL_STREAM_30", 0x0d, -1, .fallback⟩
def Transaction.PACKED_PIXEL_STREAM_36 : Transaction := ⟨"PACKED_PIXEL_STREAM_36", 0x1d, -1, .fallback⟩
def Transaction.PACKED_PIXEL_STREAM_YCBCR12 : Transaction := ⟨"PACKED_PIXEL_STREAM_YCBCR12", 0x3d, -1, .fallback⟩
def Transaction.PACKED_PIXEL_STREAM_16 : Transaction := ⟨"PACKED_PIXEL_STREAM_16", 0x0e, -1, .fallback⟩
def Transaction.PACKED_PIXEL_STREAM_18 : Transaction := ⟨"PACKED_PIXEL_STREAM_18", 0x1e, -1, .fallback⟩
def Transaction.PIXEL_STREAM_3BYTE_18 : Transaction := ⟨"PIXEL_STREAM_3BYTE_18", 0x2e, -1, .fallback⟩
def Transaction.PACKED_PIXEL_STREAM_24 : Transaction := ⟨"PACKED_PIXEL_STREAM_24", 0x3e, -1, .fallback⟩

def transactions : List Transaction :=
  [Transaction.V_SYNC_START, Transaction.V_SYNC_END, Transaction.H_SYNC_START,
   Transaction.H_SYNC_END, Transaction.COLOR_MODE_OFF, Transaction.COLOR_MODE_ON,
   Transaction.SHUTDOWN_PERIPHERAL, Transaction.TURN_ON_PERIPHERAL,
   Transaction.GENERIC_SHORT_WRITE_0_PARAM, Transaction.GENERIC_SHORT_WRITE_1_PARAM,
   Transaction.GENERIC_SHORT_WRITE_2_PARAM, Transaction.GENERIC_READ_REQUEST_0_PARAM,
   Transaction.GENERIC_READ_REQUEST_1_PARAM, Transaction.GENERIC_READ_REQUEST_2_PARAM,
   Transaction.DCS_SHORT_WRITE, Transaction.DCS_SHORT_WRITE_PARAM, Transaction.DCS_READ,
   Transaction.DCS_COMPRESSION_MODE, Transaction.PPS_LONG_WRITE,
   Transaction.SET_MAXIMUM_RETURN_PACKET_SIZE, Transaction.END_OF_TRANSMISSION,
   Transaction.NULL_PACKET, Transaction.BLANKING_PACKET, Transaction.GENERIC_LONG_WRITE,
   Transaction.DCS_LONG_WRITE, Transaction.LOOSELY_PACKED_PIXEL_STREAM_YCBCR20,
   Transaction.PACKED_PIXEL_STREAM_YCBCR24, Transaction.PACKED_PIXEL_STREAM_YCBCR16,
   Transaction.PACKED_PIXEL_STREAM_30, Transaction.PACKED_PIXEL_STREAM_36,
   Transaction.PACKED_PIXEL_STREAM_YCBCR12, Transaction.PACKED_PIXEL_STREAM_16,
   Transaction.PACKED_PIXEL_STREAM_18, Transaction.PIXEL_STREAM_3BYTE_18,
   Transaction.PACKED_PIXEL_STREAM_24]

/-- The enum constructor lookup `mipi.Transaction(value)`: `none` models the
`ValueError` raised for a value absent from the table. -/
def transactionFind (v : Nat) : Option Transaction :=
  transactions.find? (fun t => t.value == v)

/-- The `Options` fields the core consumes. -/
structure Options where
  dumbDcs : Bool
  ignoreWait : Int
deriving DecidableEq

/-- `mipi._generate_checked_call`. -/
def generateCheckedCall (method : String) (args : List String) (descr : String) : String :=
  wrapJoin ("\tret = " ++ method ++ "(") "," ");" args (-1) 80
    ++ "\n\tif (ret < 0) \x7b\n\t\tdev_err(dev, \"Failed to " ++ descr
    ++ ": %d\\n\", ret);\n\t\treturn ret;\n\t\x7d"

/-- `mipi._generate_generic_write`. -/
def generateGenericWrite (t : Transaction) (payload : List Nat) (o : Options) : String :=
  wrapJoin "\tdsi_generic_write_seq(" "," ");" ("dsi" :: getParamsHex payload) 2 80

/-- `mipi._generate_dcs_write`. -/
def generateDcsWrite (t : Transaction) (payload : List Nat) (o : Options) :
    Except PyErr String :=
  match DCSCommand.find payload o.dumbDcs with
  | .error e => .error e
  | .ok (some dcs) =>
    match dcs.method with
    | some m =>
      match Codec.eval dcs.codec payload.tail with
      | .error e => .error e
      | .ok ps => .ok (generateCheckedCall m ("dsi" :: ps) (descriptionOf dcs.name))
    | none =>
      .ok (wrapJoin "\tdsi_dcs_write_seq(" "," ");"
        ("dsi" :: (getParamsHex payload).set 0 (identifierOf dcs.name)) 2 80)
  | .ok none =>
    .ok (wrapJoin "\tdsi_dcs_write_seq(" "," ");" ("dsi" :: getParamsHex payload) 2 80)

/-- `mipi._generate_peripheral`. -/
def generatePeripheral (t : Transaction) (payload : List Nat) (o : Options) :
    Except PyErr String :=
  if t = Transaction.TURN_ON_PERIPHERAL then
    .ok (generateCheckedCall "mipi_dsi_turn_on_peripheral" ["dsi"] (descriptionOf t.name))
  else if t = Transaction.SHUTDOWN_PERIPHERAL then
    .ok (generateCheckedCall "mipi_dsi_shutdown_peripheral" ["dsi"] (descriptionOf t.name))
  else .error (.valueError t.name)

/-- `mipi._generate_null_packet`. -/
def generateNullPacket (t : Transaction) (payload : List Nat) (o : Options) : String :=
  "\t// WARNING: Ignoring weird NULL_PACKET (dummy packet)"

/-- `mipi._generate_fallback`: `raise ValueError(t.name + ' is not supported')`. -/
def generateFallback (t : Transaction) (payload : List Nat) (o : Options) :
    Except PyErr String :=
  .error (.valueError (t.name ++ " is not supported"))

/-- `Transaction.generate`: dispatch to the generator stored in the table entry. -/
def Transaction.generate (t : Transaction) (payload : List Nat) (o : Options) :
    Except PyErr String :=
  match t.gen with
  | .fallback => generateFallback t payload o
  | .peripheral => generatePeripheral t payload o
  | .genericWrite => .ok (generateGenericWrite t payload o)
  | .dcsWrite => generateDcsWrite t payload o
  | .nullPacket => .ok (generateNullPacket t payload o)

/-! ## panel.py: the TLV decode loop of `CommandSequence.__init__` -/

/-- `panel.Command` (without the `generated` field, which is filled in later
by `driver.generate_driver`). -/
structure Command where
  type : Transaction
  last : Nat
  vc : Nat
  ack : Nat
  wait : Nat
  payload : List Nat
deriving DecidableEq

/-- The decode loop of `CommandSequence.__init__`.  Per operation: one type
byte, four header bytes, a 16-bit big-endian payload length, then the payload
bytes.  Running out of bytes inside a header raises `StopIteration`; running
out inside the payload generator raises `RuntimeError` (PEP 479); an unknown
type byte raises `ValueError` from the `Transaction` lookup; an over-declared
payload for a bounded transaction is truncated to `max_args + 1` bytes. -/
def decodeSeq : List Nat → Except PyErr (List Command)
  | [] => .ok []
  | dtype :: b1 :: b2 :: b3 :: b4 :: b5 :: b6 :: rest2 =>
    let dlen := (b5 <<< 8) ||| b6
    if rest2.length < dlen then .error .runtimeError
    else
      match transactionFind dtype with
      | none => .error (.valueError (toString dtype ++ " is not a valid Transaction"))
      | some t =>
        let payload := rest2.take dlen
        let payload :=
          if 0 < t.maxArgs + 1 ∧ t.maxArgs + 1 < (dlen : Int) then
            payload.take (t.maxArgs + 1).toNat
          else payload
        match decodeSeq (rest2.drop dlen) with
        | .error e => .error e
        | .ok cmds => .ok (⟨t, b1, b2, b3, b4, payload⟩ :: cmds)
  | _ :: _ => .error .stopIteration
termination_by l => l.length
decreasing_by
  simp only [List.length_drop, List.length_cons]
  omega

/-! ## driver.py: delay rendering and the command loop of `generate_commands` -/

/-- `driver.msleep`: `msleep(m)` for delays of 20 ms or more, otherwise
`usleep_range(m * 1000, m * 1000 + 1000)`. -/
def msleep (m : Nat) : String :=
  if m ≥ 20 then "msleep(" ++ toString m ++ ")"
  else "usleep_range(" ++ toString (m * 1000) ++ ", " ++ toString (m * 1000 + 1000) ++ ")"

/-- Python `'{' in s`. -/
def hasBrace (s : String) : Bool := s.data.contains '\x7b'

/-- The per-command loop of `driver.generate_commands`, over pairs of the
already-synthesized statement `c.generated` and `c.wait`; the boolean is the
`block` flag (initially `True`). -/
def generateCommandsLoop (o : Options) : List (String × Nat) → Bool → String
  | [], _ => ""
  | (g, w) :: rest, block =>
    (if block ∨ hasBrace g then "\n" else "") ++ g ++ "\n"
      ++ (if w ≠ 0 ∧ o.ignoreWait < (w : Int) then "\t" ++ msleep w ++ ";\n" else "")
      ++ generateCommandsLoop o rest (hasBrace g)

/-- The per-sequence synthesis loop of `driver.generate_driver`:
`cmd.generated` is the concatenation of `c.type.generate(c.payload, options)`
over the sequence, and any raised exception propagates. -/
def generateSequence : List Command → Options → Except PyErr String
  | [], _ => .ok ""
  | c :: rest, o =>
    match Transaction.generate c.type c.payload o with
    | .error e => .error e
    | .ok g =>
      match generateSequence rest o with
      | .error e => .error e
      | .ok s => .ok (g ++ s)

/-- Decode a raw byte buffer and synthesize the whole sequence. -/
def pipeline (buf : List Nat) (o : Options) : Except PyErr String :=
  match decodeSeq buf with
  | .error e => .error e
  | .ok cmds => generateSequence cmds o

/-! ## Decoder lemmas -/

/-- One unfolding of `decodeSeq` on a buffer with a complete payload. -/
theorem decodeSeq_cons_ok (dtype b1 b2 b3 b4 b5 b6 : Nat) (pay tail : List Nat)
    (hlen : pay.length = (b5 <<< 8) ||| b6) :
    decodeSeq (dtype :: b1 :: b2 :: b3 :: b4 :: b5 :: b6 :: (pay ++ tail)) =
      match transactionFind dtype with
      | none => .error (.valueError (toString dtype ++ " is not a valid Transaction"))
      | some t =>
        let payload :=
          if 0 < t.maxArgs + 1 ∧ t.maxArgs + 1 < (((b5 <<< 8) ||| b6 : Nat) : Int) then
            pay.take (t.maxArgs + 1).toNat
          else pay
        match decodeSeq tail with
        | .error e => .error e
        | .ok cmds => .ok (⟨t, b1, b2, b3, b4, payload⟩ :: cmds) := by
  rw [decodeSeq]
  have hnl : ¬ (pay ++ tail).length < ((b5 <<< 8) ||| b6) := by
    rw [List.length_append, hlen]
    omega
  rw [if_neg hnl, List.take_left' hlen, List.drop_left' hlen]
  rfl

/-! ## C1: payload truncation during decode -/

unseal decodeSeq in
/-- C1 (counterexample): decoding `DCS_SHORT_WRITE_PARAM` (`max_payload_args`
= 1, positive and bounded) with a declared payload length of 3 stores the
first `max_payload_args + 1` = 2 bytes, not the first `max_payload_args` = 1
byte the claim demands. -/
theorem c1_truncation_counterexample :
    decodeSeq [0x15, 1, 0, 0, 0, 0, 3, 0x29, 0x01, 0x02]
      = .ok [⟨Transaction.DCS_SHORT_WRITE_PARAM, 1, 0, 0, 0, [0x29, 0x01]⟩]
    ∧ Transaction.DCS_SHORT_WRITE_PARAM.maxArgs = 1
    ∧ ([0x29, 0x01] : List Nat) ≠ ([0x29, 0x01, 0x02] : List Nat).take 1 := by
  refine ⟨by decide, by decide, by decide⟩

/-- C1 (amended): for an operation whose opcode classifies to a `Transaction`
with a nonnegative, bounded `max_payload_args` and whose declared payload
length exceeds `max_payload_args + 1`, the payload stored after decode is
exactly the first `max_payload_args + 1` declared payload bytes (one extra
byte for the leading command byte); truncation happens during decode, before
any later stage sees the payload. -/
theorem c1_truncation_amended
    (dtype b1 b2 b3 b4 b5 b6 : Nat) (pay tail : List Nat) (t : Transaction)
    (cs : List Command)
    (ht : transactionFind dtype = some t)
    (hlen : pay.length = (b5 <<< 8) ||| b6)
    (hpos : 0 ≤ t.maxArgs)
    (hgt : t.maxArgs + 1 < (((b5 <<< 8) ||| b6 : Nat) : Int))
    (htail : decodeSeq tail = .ok cs) :
    decodeSeq (dtype :: b1 :: b2 :: b3 :: b4 :: b5 :: b6 :: (pay ++ tail))
      = .ok (⟨t, b1, b2, b3, b4, pay.take (t.maxArgs + 1).toNat⟩ :: cs) := by
  rw [decodeSeq_cons_ok dtype b1 b2 b3 b4 b5 b6 pay tail hlen, ht]
  have hcond : 0 < t.maxArgs + 1 ∧ t.maxArgs + 1 < (((b5 <<< 8) ||| b6 : Nat) : Int) :=
    ⟨by omega, hgt⟩
  simp only [hcond, if_pos, htail, and_self]

unseal decodeSeq in
theorem c1_truncation_amended_witness :
    transactionFind 0x15 = some Transaction.DCS_SHORT_WRITE_PARAM
    ∧ (0 : Int) ≤ Transaction.DCS_SHORT_WRITE_PARAM.maxArgs
    ∧ Transaction.DCS_SHORT_WRITE_PARAM.maxArgs + 1 < ((3 : Nat) : Int)
    ∧ decodeSeq [0x15, 1, 0, 0, 0, 0, 3, 0x29, 0x01, 0x02]
        = .ok [⟨Transaction.DCS_SHORT_WRITE_PARAM, 1, 0, 0, 0,
            ([0x29, 0x01, 0x02] : List Nat).take
              ((Transaction.DCS_SHORT_WRITE_PARAM.maxArgs + 1).toNat)⟩] := by
  refine ⟨by decide, by decide, by decide, ?_⟩
  have h := c1_truncation_amended 0x15 1 0 0 0 0 3 [0x29, 0x01, 0x02] []
    Transaction.DCS_SHORT_WRITE_PARAM [] (by decide) (by decide) (by decide)
    (by decide) (by decide)
  simpa using h

/-! ## C2: unknown opcode aborts the whole decode -/

unseal decodeSeq in
/-- C2 (counterexample): a buffer with an unknown first opcode 0xFF followed
by a perfectly valid `DCS_SHORT_WRITE` operation.  The decode of the whole
buffer fails with the `Transaction` lookup `ValueError` — no stub is produced
and the remaining (individually decodable) operation is never decoded. -/
theorem c2_unknown_opcode_counterexample :
    decodeSeq [0xff, 0, 0, 0, 0, 0, 0, 0x05, 0, 0, 0, 0, 0, 1, 0x29]
      = .error (.valueError "255 is not a valid Transaction")
    ∧ decodeSeq [0x05, 0, 0, 0, 0, 0, 1, 0x29]
      = .ok [⟨Transaction.DCS_SHORT_WRITE, 0, 0, 0, 0, [0x29]⟩] := by
  refine ⟨by decide, by decide⟩

/-- C2 (amended): an operation type byte with no entry in the transaction
classifier table makes the whole decode fail with the lookup `ValueError`
(no unsupported stub, no continuation with the remaining operations). -/
theorem c2_unknown_opcode_amended
    (dtype b1 b2 b3 b4 b5 b6 : Nat) (pay tail : List Nat)
    (hlen : pay.length = (b5 <<< 8) ||| b6)
    (hnone : transactionFind dtype = none) :
    decodeSeq (dtype :: b1 :: b2 :: b3 :: b4 :: b5 :: b6 :: (pay ++ tail))
      = .error (.valueError (toString dtype ++ " is not a valid Transaction")) := by
  rw [decodeSeq_cons_ok dtype b1 b2 b3 b4 b5 b6 pay tail hlen, hnone]

unseal decodeSeq in
theorem c2_unknown_opcode_amended_witness :
    ([0x05, 0, 0, 0, 0, 0, 1, 0x29] : List Nat).length = ((0 : Nat) <<< 8) ||| 8
    ∧ transactionFind 0xff = none
    ∧ decodeSeq [0xff, 0, 0, 0, 0, 0, 8, 0x05, 0, 0, 0, 0, 0, 1, 0x29]
        = .error (.valueError (toString (0xff : Nat) ++ " is not a valid Transaction")) := by
  refine ⟨by decide, by decide, ?_⟩
  have h := c2_unknown_opcode_amended 0xff 0 0 0 0 0 8 [0x05, 0, 0, 0, 0, 0, 1, 0x29] []
    (by decide) (by decide)
  simpa using h

/-! ## C4: short payload fails the decode, no partial operation -/

/-- C4: if fewer bytes remain in the buffer than an operation's declared
16-bit big-endian payload length, decoding fails (the payload generator's
exhaustion surfaces as `RuntimeError` by PEP 479 — the spec's
`TruncatedSequence`), and the failure of any later operation propagates:
no operation with a short payload is ever part of a successful decode. -/
theorem c4_truncated_sequence :
    (∀ (dtype b1 b2 b3 b4 b5 b6 : Nat) (rest2 : List Nat),
      rest2.length < (b5 <<< 8) ||| b6 →
      decodeSeq (dtype :: b1 :: b2 :: b3 :: b4 :: b5 :: b6 :: rest2)
        = .error .runtimeError)
    ∧ (∀ (dtype b1 b2 b3 b4 b5 b6 : Nat) (pay tail : List Nat) (t : Transaction) (e : PyErr),
      pay.length = (b5 <<< 8) ||| b6 →
      transactionFind dtype = some t →
      decodeSeq tail = .error e →
      decodeSeq (dtype :: b1 :: b2 :: b3 :: b4 :: b5 :: b6 :: (pay ++ tail))
        = .error e) := by
  constructor
  · intro dtype b1 b2 b3 b4 b5 b6 rest2 hshort
    rw [decodeSeq]
    simp only [if_pos hshort]
  · intro dtype b1 b2 b3 b4 b5 b6 pay tail t e hlen ht htail
    rw [decodeSeq_cons_ok dtype b1 b2 b3 b4 b5 b6 pay tail hlen, ht]
    simp only [htail]

unseal decodeSeq in
theorem c4_truncated_sequence_witness :
    ([0x29] : List Nat).length < ((0 : Nat) <<< 8) ||| 2
    ∧ decodeSeq [0x05, 0, 0, 0, 0, 0, 2, 0x29] = .error .runtimeError
    ∧ ([] : List Nat).length = ((0 : Nat) <<< 8) ||| 0
    ∧ transactionFind 0x05 = some Transaction.DCS_SHORT_WRITE
    ∧ decodeSeq [0x15, 0, 0, 0, 0, 0, 2, 0x29] = .error .runtimeError
    ∧ decodeSeq [0x05, 0, 0, 0, 0, 0, 0, 0x15, 0, 0, 0, 0, 0, 2, 0x29]
        = .error .runtimeError := by
  refine ⟨by decide, ?_, by decide, by decide, by decide, ?_⟩
  · exact c4_truncated_sequence.1 0x05 0 0 0 0 0 2 [0x29] (by decide)
  · have h := c4_truncated_sequence.2 0x05 0 0 0 0 0 0 []
      [0x15, 0, 0, 0, 0, 0, 2, 0x29] Transaction.DCS_SHORT_WRITE .runtimeError
      (by decide) (by decide) (by decide)
    simpa using h

/-! ## C3: empty payload in the command-table matcher -/

/-- C3 (counterexample): on an empty payload, `DCSCommand.find` evaluates
`payload[0]`, raising `IndexError` — it does not return "unmatched", and the
generic write path is never reached: synthesis of a `DCS_SHORT_WRITE` with an
empty payload fails with the same exception. -/
theorem c3_empty_payload_counterexample :
    DCSCommand.find [] false = .error .indexError
    ∧ DCSCommand.find [] false ≠ .ok none
    ∧ generateDcsWrite Transaction.DCS_SHORT_WRITE [] ⟨false, 0⟩ = .error .indexError := by
  refine ⟨by decide, by decide, by decide⟩

/-- C3 (amended): an empty payload makes the matcher raise `IndexError`
(regardless of the conservative-matching flag); only a *nonempty* payload
whose first byte has no table entry is reported "unmatched" and synthesized
through the generic hex-argument write path. -/
theorem c3_empty_payload_amended :
    (∀ dumb : Bool, DCSCommand.find [] dumb = .error .indexError)
    ∧ (∀ (b0 : Nat) (rest : List Nat) (dumb : Bool),
        dcsCommands.find? (fun x => x.value == b0) = none →
        DCSCommand.find (b0 :: rest) dumb = .ok none)
    ∧ (∀ (t : Transaction) (b0 : Nat) (rest : List Nat) (o : Options),
        dcsCommands.find? (fun x => x.value == b0) = none →
        generateDcsWrite t (b0 :: rest) o
          = .ok (wrapJoin "\tdsi_dcs_write_seq(" "," ");"
              ("dsi" :: getParamsHex (b0 :: rest)) 2 80)) := by
  refine ⟨fun dumb => rfl, ?_, ?_⟩
  · intro b0 rest dumb hnone
    simp only [DCSCommand.find, hnone]
  · intro t b0 rest o hnone
    simp only [generateDcsWrite, DCSCommand.find, hnone]

theorem c3_empty_payload_amended_witness :
    dcsCommands.find? (fun x => x.value == 0xF0) = none
    ∧ DCSCommand.find [] true = .error .indexError
    ∧ DCSCommand.find [0xF0, 0x5A] false = .ok none
    ∧ generateDcsWrite Transaction.DCS_LONG_WRITE [0xF0, 0x5A] ⟨false, 0⟩
        = .ok (wrapJoin "\tdsi_dcs_write_seq(" "," ");"
            ("dsi" :: getParamsHex [0xF0, 0x5A]) 2 80) := by
  refine ⟨by decide, c3_empty_payload_amended.1 true, ?_, ?_⟩
  · exact c3_empty_payload_amended.2.1 0xF0 [0x5A] false (by decide)
  · exact c3_empty_payload_amended.2.2 Transaction.DCS_LONG_WRITE 0xF0 [0x5A] ⟨false, 0⟩ (by decide)

/-! ## C5: arity mismatch and codec failure degrade to the generic write -/

/-- C5: a payload whose first byte matches a named DCS command but whose
trailing-byte count is not among the command's declared arities — or whose
payload codec raises a `ValueError` — is reported "unmatched", and the
operation is synthesized through the generic raw-byte write carrying all the
original payload bytes; in particular `[0x29, 0x01]` against the 0-arity
`SET_DISPLAY_ON` entry yields the generic write of both bytes.  (The printed
warning is console output, outside this embedding.) -/
theorem c5_arity_mismatch_degrades :
    (∀ (b0 : Nat) (rest : List Nat) (c : DCSCommand),
      dcsCommands.find? (fun x => x.value == b0) = some c →
      c.nargs ≠ [] → rest.length ∉ c.nargs →
      DCSCommand.find (b0 :: rest) false = .ok none)
    ∧ (∀ (b0 : Nat) (rest : List Nat) (c : DCSCommand) (msg : String),
      dcsCommands.find? (fun x => x.value == b0) = some c →
      (c.nargs = [] ∨ rest.length ∈ c.nargs) →
      Codec.eval c.codec rest = .error (.valueError msg) →
      DCSCommand.find (b0 :: rest) false = .ok none)
    ∧ (∀ (t : Transaction) (b0 : Nat) (rest : List Nat) (o : Options),
      o.dumbDcs = false →
      DCSCommand.find (b0 :: rest) false = .ok none →
      generateDcsWrite t (b0 :: rest) o
        = .ok (wrapJoin "\tdsi_dcs_write_seq(" "," ");"
            ("dsi" :: getParamsHex (b0 :: rest)) 2 80))
    ∧ DCSCommand.find [0x29, 0x01] false = .ok none
    ∧ generateDcsWrite Transaction.DCS_SHORT_WRITE [0x29, 0x01] ⟨false, 0⟩
        = .ok "\tdsi_dcs_write_seq(dsi, 0x29, 0x01);" := by
  refine ⟨?_, ?_, ?_, by decide, by decide⟩
  · intro b0 rest c hfind hn hmem
    simp only [DCSCommand.find, hfind]
    rw [if_neg (by simp), if_pos ⟨hn, hmem⟩]
  · intro b0 rest c msg hfind harity hcodec
    simp only [DCSCommand.find, hfind]
    rw [if_neg (by simp), if_neg (by rcases harity with h | h <;> simp [h]), hcodec]
  · intro t b0 rest o ho hfind
    simp only [generateDcsWrite, ho, hfind]

theorem c5_arity_mismatch_degrades_witness :
    dcsCommands.find? (fun x => x.value == 0x29) = some DCSCommand.SET_DISPLAY_ON
    ∧ DCSCommand.SET_DISPLAY_ON.nargs ≠ []
    ∧ ([0x01] : List Nat).length ∉ DCSCommand.SET_DISPLAY_ON.nargs
    ∧ DCSCommand.find [0x29, 0x01] false = .ok none
    ∧ dcsCommands.find? (fun x => x.value == 0x35) = some DCSCommand.SET_TEAR_ON
    ∧ Codec.eval DCSCommand.SET_TEAR_ON.codec [5]
        = .error (.valueError "5 is not a valid TearMode")
    ∧ DCSCommand.find [0x35, 5] false = .ok none
    ∧ generateDcsWrite Transaction.DCS_SHORT_WRITE_PARAM [0x35, 5] ⟨false, 0⟩
        = .ok (wrapJoin "\tdsi_dcs_write_seq(" "," ");"
            ("dsi" :: getParamsHex [0x35, 5]) 2 80) := by
  refine ⟨by decide, by decide, by decide, ?_, by decide, by decide, ?_, ?_⟩
  · exact c5_arity_mismatch_degrades.1 0x29 [0x01] DCSCommand.SET_DISPLAY_ON
      (by decide) (by decide) (by decide)
  · exact c5_arity_mismatch_degrades.2.1 0x35 [5] DCSCommand.SET_TEAR_ON
      "5 is not a valid TearMode" (by decide) (by decide) (by decide)
  · exact c5_arity_mismatch_degrades.2.2.1 Transaction.DCS_SHORT_WRITE_PARAM 0x35 [5]
      ⟨false, 0⟩ rfl (c5_arity_mismatch_degrades.2.1 0x35 [5] DCSCommand.SET_TEAR_ON
        "5 is not a valid TearMode" (by decide) (by decide) (by decide))

/-! ## C10: empty valid-arity tuples skip argument-count validation -/

/-- C10: a DCS command-table entry declared without any argument arity
(empty `nargs` tuple) skips arity validation entirely: in default
(non-conservative) matching, a payload of any length whose first byte equals
such an entry's opcode is matched — all such entries use the total default
hex codec, so the match is unconditional and is never demoted to the generic
path for argument count. -/
theorem c10_empty_arity_skips_validation
    (b0 : Nat) (c : DCSCommand) (rest : List Nat)
    (hfind : dcsCommands.find? (fun x => x.value == b0) = some c)
    (hn : c.nargs = []) :
    c.codec = Codec.hex ∧ DCSCommand.find (b0 :: rest) false = .ok (some c) := by
  have hc : c ∈ dcsCommands := List.mem_of_find?_eq_some hfind
  have hhex : c.codec = Codec.hex := by
    have hall : ∀ x ∈ dcsCommands, x.nargs = [] → x.codec = Codec.hex := by decide
    exact hall c hc hn
  refine ⟨hhex, ?_⟩
  simp only [DCSCommand.find, hfind, hn]
  rw [if_neg (by simp), if_neg (by simp), hhex]
  rfl

theorem c10_empty_arity_skips_validation_witness :
    dcsCommands.find? (fun x => x.value == 0x2C) = some DCSCommand.WRITE_MEMORY_START
    ∧ DCSCommand.WRITE_MEMORY_START.nargs = []
    ∧ DCSCommand.find [0x2C, 1, 2, 3, 4, 5] false = .ok (some DCSCommand.WRITE_MEMORY_START) := by
  refine ⟨by decide, by decide, ?_⟩
  exact (c10_empty_arity_skips_validation 0x2C DCSCommand.WRITE_MEMORY_START
    [1, 2, 3, 4, 5] (by decide) (by decide)).2

/-! ## C6: unsupported transactions are fatal at synthesis time -/

/-- On a nonempty payload the matcher never raises: the only uncaught codec
exception (`IndexError` in `TearMode.get_params`) is unreachable because the
`SET_TEAR_ON` arity check guarantees exactly one trailing byte.  Moreover, a
matched command's codec is re-runnable without error. -/
theorem dcs_find_ok (b0 : Nat) (rest : List Nat) (dumb : Bool) :
    ∃ r, DCSCommand.find (b0 :: rest) dumb = .ok r
      ∧ ∀ c, r = some c → ∃ ps, Codec.eval c.codec rest = .ok ps := by
  rcases hf : dcsCommands.find? (fun x => x.value == b0) with _ | c
  · exact ⟨none, by simp [DCSCommand.find, hf], by simp⟩
  · have hc : c ∈ dcsCommands := List.mem_of_find?_eq_some hf
    by_cases hd : (dumb : Prop) ∧ c ∉ dcsDumbAllowed
    · refine ⟨none, ?_, by simp⟩
      simp only [DCSCommand.find, hf]
      rw [if_pos hd]
    by_cases ha : c.nargs ≠ [] ∧ rest.length ∉ c.nargs
    · refine ⟨none, ?_, by simp⟩
      simp only [DCSCommand.find, hf]
      rw [if_neg hd, if_pos ha]
    rcases hcodec : c.codec with _ | ⟨size, bo⟩ | _
    · refine ⟨some c, ?_, ?_⟩
      · simp only [DCSCommand.find, hf]
        rw [if_neg hd, if_neg ha, hcodec]
        rfl
      · intro c' hc'
        cases hc'
        exact ⟨getParamsHex rest, by simp [hcodec, Codec.eval]⟩
    · refine ⟨some c, ?_, ?_⟩
      · simp only [DCSCommand.find, hf]
        rw [if_neg hd, if_neg ha, hcodec]
        rfl
      · intro c' hc'
        cases hc'
        exact ⟨getParamsInt size bo rest, by simp [hcodec, Codec.eval]⟩
    · have harity : c.nargs = [1] := by
        have hall : ∀ x ∈ dcsCommands, x.codec = Codec.tear → x.nargs = [1] := by decide
        exact hall c hc hcodec
      have hone : rest.length = 1 := by
        rcases Decidable.not_and_iff_or_not.mp ha with h | h
        · simp [harity] at h
        · have := Decidable.not_not.mp h
          simp [harity] at this
          exact this
      obtain ⟨x, rfl⟩ := List.length_eq_one.mp hone
      by_cases hx0 : x = 0
      · refine ⟨some c, ?_, ?_⟩
        · simp only [DCSCommand.find, hf]
          rw [if_neg hd, if_neg ha, hcodec]
          simp [Codec.eval, hx0]
        · intro c' hc'
          cases hc'
          exact ⟨["MIPI_DSI_DCS_TEAR_MODE_VBLANK"], by simp [hcodec, Codec.eval, hx0]⟩
      by_cases hx1 : x = 1
      · refine ⟨some c, ?_, ?_⟩
        · simp only [DCSCommand.find, hf]
          rw [if_neg hd, if_neg ha, hcodec]
          simp [Codec.eval, hx0, hx1]
        · intro c' hc'
          cases hc'
          exact ⟨["MIPI_DSI_DCS_TEAR_MODE_VHBLANK"], by simp [hcodec, Codec.eval, hx0, hx1]⟩
      · refine ⟨none, ?_, by simp⟩
        simp only [DCSCommand.find, hf]
        rw [if_neg hd, if_neg ha, hcodec]
        simp [Codec.eval, hx0, hx1]

/-- C6 (counterexample): `UnsupportedTransaction` is *not* the only fatal
synthesis case — the DCS write path of a classified-and-supported opcode also
fails fatally (with `IndexError`) on an empty payload. -/
theorem c6_fatal_not_unique_counterexample :
    Transaction.generate Transaction.DCS_SHORT_WRITE [] ⟨false, 0⟩ = .error .indexError
    ∧ Transaction.DCS_SHORT_WRITE.gen ≠ GenStrategy.fallback := by
  refine ⟨by decide, by decide⟩

/-- C6 (amended): every known opcode classifies successfully; invoking
synthesis for an entry with no synthesis strategy (the fallback generator,
e.g. the pixel-stream framing types) fails with `UnsupportedTransaction`
(a `ValueError` naming the opcode), aborting synthesis of the input; and this
is the only fatal synthesis case *for operations with a nonempty payload* —
the DCS write path can additionally raise on an empty payload. -/
theorem c6_unsupported_amended :
    (∀ t ∈ transactions, transactionFind t.value = some t)
    ∧ (∀ (t : Transaction) (payload : List Nat) (o : Options), t.gen = GenStrategy.fallback →
        Transaction.generate t payload o = .error (.valueError (t.name ++ " is not supported")))
    ∧ (∀ (t : Transaction) (payload : List Nat) (o : Options),
        t ∈ transactions → t.gen ≠ GenStrategy.fallback → payload ≠ [] →
        ∃ s, Transaction.generate t payload o = .ok s) := by
  refine ⟨by decide, ?_, ?_⟩
  · intro t payload o hgen
    simp [Transaction.generate, hgen, generateFallback]
  · intro t payload o hmem hgen hpay
    rcases hg : t.gen
    · exact absurd hg hgen
    · have hper : t = Transaction.SHUTDOWN_PERIPHERAL ∨ t = Transaction.TURN_ON_PERIPHERAL := by
        have hall : ∀ x ∈ transactions, x.gen = GenStrategy.peripheral →
            x = Transaction.SHUTDOWN_PERIPHERAL ∨ x = Transaction.TURN_ON_PERIPHERAL := by decide
        exact hall t hmem hg
      rcases hper with rfl | rfl
      · exact ⟨generateCheckedCall "mipi_dsi_shutdown_peripheral" ["dsi"]
            (descriptionOf Transaction.SHUTDOWN_PERIPHERAL.name), rfl⟩
      · exact ⟨generateCheckedCall "mipi_dsi_turn_on_peripheral" ["dsi"]
            (descriptionOf Transaction.TURN_ON_PERIPHERAL.name), rfl⟩
    · exact ⟨generateGenericWrite t payload o, by simp [Transaction.generate, hg]⟩
    · rcases payload with _ | ⟨b0, rest⟩
      · exact absurd rfl hpay
      obtain ⟨r, hr, hcodec⟩ := dcs_find_ok b0 rest o.dumbDcs
      rcases r with _ | c
      · exact ⟨wrapJoin "\tdsi_dcs_write_seq(" "," ");" ("dsi" :: getParamsHex (b0 :: rest)) 2 80,
          by simp [Transaction.generate, hg, generateDcsWrite, hr]⟩
      · obtain ⟨ps, hps⟩ := hcodec c rfl
        rcases hm : c.method with _ | m
        · exact ⟨wrapJoin "\tdsi_dcs_write_seq(" "," ");"
              ("dsi" :: (getParamsHex (b0 :: rest)).set 0 (identifierOf c.name)) 2 80,
            by simp [Transaction.generate, hg, generateDcsWrite, hr, hm]⟩
        · refine ⟨generateCheckedCall m ("dsi" :: ps) (descriptionOf c.name), ?_⟩
          simp only [Transaction.generate, hg, generateDcsWrite, hr, hm]
          rw [show (b0 :: rest).tail = rest from rfl, hps]
    · exact ⟨generateNullPacket t payload o, by simp [Transaction.generate, hg]⟩

theorem c6_unsupported_amended_witness :
    Transaction.PACKED_PIXEL_STREAM_24 ∈ transactions
    ∧ transactionFind Transaction.PACKED_PIXEL_STREAM_24.value
        = some Transaction.PACKED_PIXEL_STREAM_24
    ∧ Transaction.PACKED_PIXEL_STREAM_24.gen = GenStrategy.fallback
    ∧ Transaction.generate Transaction.PACKED_PIXEL_STREAM_24 [1, 2] ⟨false, 0⟩
        = .error (.valueError (Transaction.PACKED_PIXEL_STREAM_24.name ++ " is not supported"))
    ∧ (∃ s, Transaction.generate Transaction.DCS_SHORT_WRITE [0x29] ⟨false, 0⟩ = .ok s) := by
  refine ⟨by decide, ?_, by decide, ?_, ?_⟩
  · exact c6_unsupported_amended.1 Transaction.PACKED_PIXEL_STREAM_24 (by decide)
  · exact c6_unsupported_amended.2.1 Transaction.PACKED_PIXEL_STREAM_24 [1, 2] ⟨false, 0⟩ (by decide)
  · exact c6_unsupported_amended.2.2 Transaction.DCS_SHORT_WRITE [0x29] ⟨false, 0⟩
      (by decide) (by decide) (by decide)

/-! ## C7: delay statement emission and rendering -/

/-- C7: after a synthesized statement, a delay statement is appended exactly
when `wait` is nonzero and exceeds the configured ignore-wait threshold;
`wait ≥ 20` renders as `msleep(wait)` and `0 < wait < 20` as
`usleep_range(wait * 1000, wait * 1000 + 1000)`.  In particular `wait = 19`
gives the bounds 19000 and 20000, and a 120 ms wait is suppressed by a
threshold of 150 but rendered as `msleep(120)` with a threshold of 50. -/
theorem c7_delay_rendering (w : Nat) (ig : Int) (g : String) :
    generateCommandsLoop ⟨false, ig⟩ [(g, w)] true
      = "\n" ++ g ++ "\n"
        ++ (if w ≠ 0 ∧ ig < (w : Int) then "\t" ++ msleep w ++ ";\n" else "")
    ∧ (20 ≤ w → msleep w = "msleep(" ++ toString w ++ ")")
    ∧ (0 < w → w < 20 →
        msleep w = "usleep_range(" ++ toString (w * 1000) ++ ", "
          ++ toString (w * 1000 + 1000) ++ ")")
    ∧ msleep 19 = "usleep_range(19000, 20000)"
    ∧ generateCommandsLoop ⟨false, 150⟩ [(g, 120)] true = "\n" ++ g ++ "\n"
    ∧ generateCommandsLoop ⟨false, 50⟩ [(g, 120)] true
        = "\n" ++ g ++ "\n" ++ "\tmsleep(120);\n" := by
  have happend : ∀ s : String, s ++ "" = s := by
    intro s
    cases s
    simp [String.append]
  refine ⟨?_, ?_, ?_, by decide, ?_, ?_⟩
  · simp only [generateCommandsLoop, true_or, if_pos, String.append_assoc, happend]
  · intro h20
    simp [msleep, h20]
  · intro hpos hlt
    rw [msleep, if_neg (by omega)]
  · simp only [generateCommandsLoop, true_or, if_pos, String.append_assoc, happend]
    rw [if_neg (by norm_num)]
    simp [happend]
  · simp only [generateCommandsLoop, true_or, if_pos, String.append_assoc, happend]
    rw [if_pos (by norm_num)]
    have : msleep 120 = "msleep(120)" := by decide
    simp [this]

theorem c7_delay_rendering_witness :
    (20 ≤ 25 → msleep 25 = "msleep(" ++ toString 25 ++ ")")
    ∧ (0 < 19 → 19 < 20 →
        msleep 19 = "usleep_range(" ++ toString (19 * 1000) ++ ", "
          ++ toString (19 * 1000 + 1000) ++ ")")
    ∧ generateCommandsLoop ⟨false, 150⟩ [("x", 120)] true = "\n" ++ "x" ++ "\n" :=
  ⟨(c7_delay_rendering 25 0 "x").2.1,
   (c7_delay_rendering 19 0 "x").2.2.1,
   (c7_delay_rendering 120 150 "x").2.2.2.2.1⟩

/-! ## C9: the pipeline is deterministic -/

/-- C9: the core pipeline is a pure function of the input byte buffer and the
configuration; decoding the same buffer and synthesizing with the same
configuration twice yields identical generated text. -/
theorem c9_pipeline_deterministic (b₁ b₂ : List Nat) (o₁ o₂ : Options)
    (hb : b₁ = b₂) (ho : o₁ = o₂) :
    pipeline b₁ o₁ = pipeline b₂ o₂ := by
  rw [hb, ho]

theorem c9_pipeline_deterministic_witness :
    ([0x05, 0, 0, 0, 0, 0, 1, 0x29] : List Nat) = [0x05, 0, 0, 0, 0, 0, 1, 0x29]
    ∧ pipeline [0x05, 0, 0, 0, 0, 0, 1, 0x29] ⟨false, 0⟩
        = pipeline [0x05, 0, 0, 0, 0, 0, 1, 0x29] ⟨false, 0⟩ :=
  ⟨rfl, c9_pipeline_deterministic [0x05, 0, 0, 0, 0, 0, 1, 0x29]
    [0x05, 0, 0, 0, 0, 0, 1, 0x29] ⟨false, 0⟩ ⟨false, 0⟩ rfl rfl⟩

/-! ## C8: line formatter lemmas -/

theorem renderAcc_concat (acc : List (List Char)) (x : List Char) :
    renderAcc (acc ++ [x]) = renderAcc acc ++ (x ++ ['\n']) := by
  simp [renderAcc]

theorem joinWithNL_concat (x : List Char) :
    ∀ acc, joinWithNL (acc ++ [x]) = renderAcc acc ++ x := by
  intro acc
  induction acc with
  | nil => simp [joinWithNL, renderAcc]
  | cons a as ih =>
    rcases as with _ | ⟨b, bs⟩
    · simp [joinWithNL, renderAcc]
    · simp only [List.cons_append]
      rw [joinWithNL]
      rw [show (b :: (bs ++ [x])) = (b :: bs) ++ [x] from rfl, ih]
      simp [renderAcc, List.append_assoc]

theorem joinAux_eq_joinLines (ind : List Char) (wrapR force : Int) (endS sep : List Char) :
    ∀ (items : List (List Char)) (i : Nat) (acc : List (List Char)) (line pfx : List Char),
    joinAux ind wrapR force endS sep items i (renderAcc acc) line pfx
      = joinWithNL (joinLines ind wrapR force endS sep items i acc line pfx) := by
  intro items
  induction items with
  | nil =>
    intro i acc line pfx
    rw [joinAux, joinLines, joinWithNL_concat]
    simp [List.append_assoc]
  | cons itm rest ih =>
    intro i acc line pfx
    rw [joinAux, joinLines]
    by_cases hl : line = []
    · rw [if_pos hl, if_pos hl]
      exact ih (i + 1) acc (itm ++ (if rest = [] then endS else sep)) pfx
    by_cases hf : force = (i : Int) ∨
        (width line : Int) + (itm.length : Int)
          + ((if rest = [] then endS else sep).length : Int) > wrapR
    · rw [if_neg hl, if_pos hf, if_neg hl, if_pos hf]
      have hre : renderAcc (acc ++ [pfx ++ line]) = renderAcc acc ++ pfx ++ line ++ ['\n'] := by
        rw [renderAcc_concat]
        simp [List.append_assoc]
      rw [← hre]
      exact ih (i + 1) (acc ++ [pfx ++ line]) (itm ++ (if rest = [] then endS else sep)) ind
    · rw [if_neg hl, if_neg hf, if_neg hl, if_neg hf]
      exact ih (i + 1) acc (line ++ [' '] ++ itm ++ (if rest = [] then endS else sep)) pfx

theorem wrapJoinCore_eq_lines (pfx sep endS : List Char) (items : List (List Char))
    (force : Int) (w : Nat)
    (hw : ¬ width (pfx ++ List.intercalate (sep ++ [' ']) items ++ endS) ≤ w) :
    wrapJoinCore pfx sep endS items force w
      = joinWithNL (wrapJoinLines pfx sep endS items force w) := by
  simp only [wrapJoinCore, wrapJoinLines, if_neg hw]
  have h := joinAux_eq_joinLines (indentOf (width pfx)) ((w : Int) - (width pfx : Int))
    force endS sep items 0 [] [] pfx
  simpa [renderAcc] using h

theorem width_indentOf (a : Nat) : width (indentOf a) = a := by
  have h1 : List.count '\t' (List.replicate (a / 8) '\t') = a / 8 := by simp
  have h2 : List.count '\t' (List.replicate (a % 8) ' ') = 0 := by
    simp [List.count_replicate]
  simp only [width, indentOf, List.count_append, List.length_append,
    List.length_replicate, h1, h2]
  omega

theorem joinLines_acc_prefix (ind : List Char) (wrapR force : Int) (endS sep : List Char) :
    ∀ (items : List (List Char)) (i : Nat) (acc : List (List Char)) (line pfx : List Char),
    ∃ r, joinLines ind wrapR force endS sep items i acc line pfx = acc ++ r := by
  intro items
  induction items with
  | nil =>
    intro i acc line pfx
    exact ⟨[pfx ++ line], by rw [joinLines]⟩
  | cons itm rest ih =>
    intro i acc line pfx
    rw [joinLines]
    by_cases hl : line = []
    · rw [if_pos hl]
      exact ih _ _ _ _
    by_cases hf : force = (i : Int) ∨
        (width line : Int) + (itm.length : Int)
          + ((if rest = [] then endS else sep).length : Int) > wrapR
    · rw [if_neg hl, if_pos hf]
      obtain ⟨r, hr⟩ := ih (i + 1) (acc ++ [pfx ++ line])
        (itm ++ (if rest = [] then endS else sep)) ind
      exact ⟨[pfx ++ line] ++ r, by rw [hr]; simp⟩
    · rw [if_neg hl, if_neg hf]
      exact ih _ _ _ _

theorem joinLines_structure (ind : List Char) (wrapR force : Int) (endS sep : List Char) :
    ∀ (items : List (List Char)) (i : Nat) (acc : List (List Char)) (line pfx : List Char),
    ∃ t r, joinLines ind wrapR force endS sep items i acc line pfx
        = acc ++ (pfx ++ (line ++ t)) :: r
      ∧ ∀ l ∈ r, ind <+: l := by
  intro items
  induction items with
  | nil =>
    intro i acc line pfx
    exact ⟨[], [], by rw [joinLines]; simp, by simp⟩
  | cons itm rest ih =>
    intro i acc line pfx
    rw [joinLines]
    by_cases hl : line = []
    · rw [if_pos hl]
      obtain ⟨t, r, hr, hind⟩ := ih (i + 1) acc (itm ++ (if rest = [] then endS else sep)) pfx
      refine ⟨itm ++ (if rest = [] then endS else sep) ++ t, r, ?_, hind⟩
      rw [hr, hl]
      simp [List.append_assoc]
    by_cases hf : force = (i : Int) ∨
        (width line : Int) + (itm.length : Int)
          + ((if rest = [] then endS else sep).length : Int) > wrapR
    · rw [if_neg hl, if_pos hf]
      obtain ⟨t, r, hr, hind⟩ := ih (i + 1) (acc ++ [pfx ++ line])
        (itm ++ (if rest = [] then endS else sep)) ind
      refine ⟨[], (ind ++ ((itm ++ (if rest = [] then endS else sep)) ++ t)) :: r, ?_, ?_⟩
      · rw [hr]
        simp [List.append_assoc]
      · intro l hl'
        rcases List.mem_cons.mp hl' with rfl | hl''
        · exact List.prefix_append ind _
        · exact hind l hl''
    · rw [if_neg hl, if_neg hf]
      obtain ⟨t, r, hr, hind⟩ := ih (i + 1) acc
        (line ++ [' '] ++ itm ++ (if rest = [] then endS else sep)) pfx
      refine ⟨[' '] ++ itm ++ (if rest = [] then endS else sep) ++ t, r, ?_, hind⟩
      rw [hr]
      simp [List.append_assoc]

theorem noNL_indentOf (a : Nat) : noNL (indentOf a) := by
  intro hmem
  rcases List.mem_append.mp hmem with h | h
  · have := List.eq_of_mem_replicate h
    exact absurd this (by decide)
  · have := List.eq_of_mem_replicate h
    exact absurd this (by decide)

theorem indentOf_whitespace (a : Nat) : ∀ c ∈ indentOf a, c = '\t' ∨ c = ' ' := by
  intro c hmem
  rcases List.mem_append.mp hmem with h | h
  · exact Or.inl (List.eq_of_mem_replicate h)
  · exact Or.inr (List.eq_of_mem_replicate h)

theorem noNL_append {a b : List Char} (ha : noNL a) (hb : noNL b) : noNL (a ++ b) := by
  intro hmem
  rcases List.mem_append.mp hmem with h | h
  · exact ha h
  · exact hb h

theorem joinLines_noNL (ind : List Char) (wrapR force : Int) (endS sep : List Char)
    (hind : noNL ind) (hsep : noNL sep) (hend : noNL endS) :
    ∀ (items : List (List Char)) (i : Nat) (acc : List (List Char)) (line pfx : List Char),
    (∀ l ∈ acc, noNL l) → noNL line → noNL pfx → (∀ x ∈ items, noNL x) →
    ∀ l ∈ joinLines ind wrapR force endS sep items i acc line pfx, noNL l := by
  intro items
  have hsp : ∀ rest : List (List Char), noNL (if rest = [] then endS else sep) := by
    intro rest
    by_cases h : rest = [] <;> simp [h, hsep, hend]
  induction items with
  | nil =>
    intro i acc line pfx hacc hline hpfx _ l hl
    rw [joinLines] at hl
    rcases List.mem_append.mp hl with h | h
    · exact hacc l h
    · rcases List.mem_singleton.mp h with rfl
      exact noNL_append hpfx hline
  | cons itm rest ih =>
    intro i acc line pfx hacc hline hpfx hitems l hl
    have hitm : noNL itm := hitems itm (by simp)
    have hrest : ∀ x ∈ rest, noNL x := fun x hx => hitems x (by simp [hx])
    rw [joinLines] at hl
    by_cases hlne : line = []
    · rw [if_pos hlne] at hl
      exact ih (i + 1) acc _ pfx hacc (noNL_append hitm (hsp rest)) hpfx hrest l hl
    by_cases hf : force = (i : Int) ∨
        (width line : Int) + (itm.length : Int)
          + ((if rest = [] then endS else sep).length : Int) > wrapR
    · rw [if_neg hlne, if_pos hf] at hl
      refine ih (i + 1) (acc ++ [pfx ++ line]) _ ind ?_ (noNL_append hitm (hsp rest)) hind hrest l hl
      intro x hx
      rcases List.mem_append.mp hx with h | h
      · exact hacc x h
      · rcases List.mem_singleton.mp h with rfl
        exact noNL_append hpfx hline
    · rw [if_neg hlne, if_neg hf] at hl
      refine ih (i + 1) acc _ pfx hacc ?_ hpfx hrest l hl
      exact noNL_append (noNL_append (noNL_append hline (by simp [noNL])) hitm) (hsp rest)

theorem joinLines_wide_line (ind : List Char) (wrapR force : Int) (endS sep : List Char)
    (items : List (List Char)) (i : Nat) (acc : List (List Char)) (line pfx : List Char)
    (hne : line ≠ []) (hw : wrapR < (width line : Int)) :
    (pfx ++ line) ∈ joinLines ind wrapR force endS sep items i acc line pfx := by
  cases items with
  | nil =>
    rw [joinLines]
    simp
  | cons itm rest =>
    rw [joinLines]
    have hf : force = (i : Int) ∨
        (width line : Int) + (itm.length : Int)
          + ((if rest = [] then endS else sep).length : Int) > wrapR := by
      refine Or.inr ?_
      have h1 : (0 : Int) ≤ (itm.length : Int) := Int.natCast_nonneg _
      have h2 : (0 : Int) ≤ ((if rest = [] then endS else sep).length : Int) := Int.natCast_nonneg _
      omega
    rw [if_neg hne, if_pos hf]
    obtain ⟨r, hr⟩ := joinLines_acc_prefix ind wrapR force endS sep rest (i + 1)
      (acc ++ [pfx ++ line]) (itm ++ (if rest = [] then endS else sep)) ind
    rw [hr]
    simp

theorem length_le_width (x : List Char) : (x.length : Int) ≤ (width x : Int) := by
  have h : x.length ≤ width x := Nat.le_add_right _ _
  exact_mod_cast h

theorem joinLines_wide_item (P ind : List Char) (wrapR force : Int) (endS sep : List Char) :
    ∀ (items : List (List Char)) (k : Nat) (itm : List Char) (i : Nat)
      (acc : List (List Char)) (line pfx : List Char),
    items.get? k = some itm → itm ≠ [] →
    wrapR < (itm.length : Int) + ((if k + 1 = items.length then endS else sep).length : Int) →
    (pfx = P ∨ pfx = ind) →
    ∃ q, (q = P ∨ q = ind)
      ∧ (q ++ (itm ++ (if k + 1 = items.length then endS else sep)))
          ∈ joinLines ind wrapR force endS sep items i acc line pfx := by
  intro items
  induction items with
  | nil =>
    intro k itm i acc line pfx hk
    simp at hk
  | cons itm0 rest ih =>
    intro k itm i acc line pfx hk hne hwide hpfx
    cases k with
    | zero =>
      have h0 : itm0 = itm := by simpa using hk
      subst h0
      have hiff0 : (0 + 1 = (itm0 :: rest).length) ↔ rest = [] := by
        simp only [List.length_cons]
        constructor
        · intro h
          have hlen : rest.length = 0 := by omega
          exact List.length_eq_zero.mp hlen
        · intro h
          subst h
          simp
      simp only [hiff0] at hwide ⊢
      have hne2 : itm0 ++ (if rest = [] then endS else sep) ≠ [] := by
        intro hc
        exact hne (List.append_eq_nil.mp hc).1
      have hwl : wrapR < (width (itm0 ++ (if rest = [] then endS else sep)) : Int) := by
        have h1 := length_le_width (itm0 ++ (if rest = [] then endS else sep))
        have h2 : ((itm0 ++ (if rest = [] then endS else sep)).length : Int)
            = (itm0.length : Int) + ((if rest = [] then endS else sep).length : Int) := by
          push_cast [List.length_append]
          ring
        omega
      rw [joinLines]
      by_cases hl : line = []
      · rw [if_pos hl]
        exact ⟨pfx, hpfx, joinLines_wide_line ind wrapR force endS sep rest (i + 1) acc
          (itm0 ++ (if rest = [] then endS else sep)) pfx hne2 hwl⟩
      · have hf : force = (i : Int) ∨
            (width line : Int) + (itm0.length : Int)
              + ((if rest = [] then endS else sep).length : Int) > wrapR := by
          refine Or.inr ?_
          have h0 : (0 : Int) ≤ (width line : Int) := Int.natCast_nonneg _
          omega
        rw [if_neg hl, if_pos hf]
        exact ⟨ind, Or.inr rfl, joinLines_wide_line ind wrapR force endS sep rest (i + 1)
          (acc ++ [pfx ++ line]) (itm0 ++ (if rest = [] then endS else sep)) ind hne2 hwl⟩
    | succ k' =>
      have hk' : rest.get? k' = some itm := by simpa using hk
      have hiff : (k' + 1 + 1 = (itm0 :: rest).length) ↔ (k' + 1 = rest.length) := by
        simp only [List.length_cons]
        omega
      simp only [hiff] at hwide ⊢
      rw [joinLines]
      by_cases hl : line = []
      · rw [if_pos hl]
        exact ih k' itm (i + 1) acc (itm0 ++ (if rest = [] then endS else sep)) pfx
          hk' hne hwide hpfx
      by_cases hf : force = (i : Int) ∨
          (width line : Int) + (itm0.length : Int)
            + ((if rest = [] then endS else sep).length : Int) > wrapR
      · rw [if_neg hl, if_pos hf]
        exact ih k' itm (i + 1) (acc ++ [pfx ++ line])
          (itm0 ++ (if rest = [] then endS else sep)) ind hk' hne hwide (Or.inr rfl)
      · rw [if_neg hl, if_neg hf]
        exact ih k' itm (i + 1) acc (line ++ [' '] ++ itm0 ++ (if rest = [] then endS else sep))
          pfx hk' hne hwide hpfx

/-- C8: the line formatter.  If the single-line rendering's tab-aware width
(tabs count as 8 columns) fits the wrap budget, `wrap.join` returns exactly
that single line.  Otherwise it returns the newline-join of its produced
lines, where: the first line starts with the caller's prefix; every
continuation line starts with the computed indent, which is pure whitespace
of visual width equal to the prefix's visual width; lines contain no embedded
newline (for newline-free inputs); and an argument wider than the remaining
budget still ends up in full on a line of its own (directly after the prefix
or the indent), never truncated. -/
theorem c8_line_formatter (pfx sep endS : List Char) (items : List (List Char))
    (force : Int) (w : Nat) :
    (width (pfx ++ List.intercalate (sep ++ [' ']) items ++ endS) ≤ w →
      wrapJoinCore pfx sep endS items force w
        = pfx ++ List.intercalate (sep ++ [' ']) items ++ endS)
    ∧ (¬ width (pfx ++ List.intercalate (sep ++ [' ']) items ++ endS) ≤ w →
        wrapJoinCore pfx sep endS items force w
            = joinWithNL (wrapJoinLines pfx sep endS items force w)
        ∧ width (indentOf (width pfx)) = width pfx
        ∧ (∀ c ∈ indentOf (width pfx), c = '\t' ∨ c = ' ')
        ∧ (∃ t r, wrapJoinLines pfx sep endS items force w = (pfx ++ t) :: r
            ∧ ∀ l ∈ r, indentOf (width pfx) <+: l)
        ∧ (noNL pfx → noNL sep → noNL endS → (∀ x ∈ items, noNL x) →
            ∀ l ∈ wrapJoinLines pfx sep endS items force w, noNL l)
        ∧ (∀ (k : Nat) (itm : List Char), items.get? k = some itm → itm ≠ [] →
            (w : Int) - (width pfx : Int)
              < (itm.length : Int)
                + ((if k + 1 = items.length then endS else sep).length : Int) →
            ∃ q, (q = pfx ∨ q = indentOf (width pfx))
              ∧ (q ++ (itm ++ (if k + 1 = items.length then endS else sep)))
                  ∈ wrapJoinLines pfx sep endS items force w)) := by
  constructor
  · intro hw
    simp only [wrapJoinCore, if_pos hw]
  · intro hw
    refine ⟨wrapJoinCore_eq_lines pfx sep endS items force w hw, width_indentOf _,
      indentOf_whitespace _, ?_, ?_, ?_⟩
    · obtain ⟨t, r, hr, hind⟩ := joinLines_structure (indentOf (width pfx))
        ((w : Int) - (width pfx : Int)) force endS sep items 0 [] [] pfx
      refine ⟨t, r, ?_, hind⟩
      simp only [wrapJoinLines]
      simpa using hr
    · intro hpfx hsep hend hitems
      simp only [wrapJoinLines]
      exact joinLines_noNL (indentOf (width pfx)) ((w : Int) - (width pfx : Int)) force endS sep
        (noNL_indentOf _) hsep hend items 0 [] [] pfx (by simp) (by simp [noNL]) hpfx hitems
    · intro k itm hk hne hwide
      simp only [wrapJoinLines]
      exact joinLines_wide_item pfx (indentOf (width pfx)) ((w : Int) - (width pfx : Int))
        force endS sep items k itm 0 [] [] pfx hk hne hwide (Or.inl rfl)

theorem c8_line_formatter_witness :
    (width ("a(".data ++ List.intercalate (",".data ++ [' ']) ["x".data, "y".data] ++ ")".data) ≤ 80
      ∧ wrapJoinCore "a(".data ",".data ")".data ["x".data, "y".data] (-1) 80
          = "a(".data ++ List.intercalate (",".data ++ [' ']) ["x".data, "y".data] ++ ")".data)
    ∧ (¬ width ("a(".data ++ List.intercalate (",".data ++ [' '])
          ["xx".data, "yyyy".data, "zz".data] ++ ")".data) ≤ 5
      ∧ wrapJoinCore "a(".data ",".data ")".data ["xx".data, "yyyy".data, "zz".data] (-1) 5
          = joinWithNL (wrapJoinLines "a(".data ",".data ")".data
              ["xx".data, "yyyy".data, "zz".data] (-1) 5)
      ∧ (∃ t r, wrapJoinLines "a(".data ",".data ")".data
            ["xx".data, "yyyy".data, "zz".data] (-1) 5 = ("a(".data ++ t) :: r
          ∧ ∀ l ∈ r, indentOf (width "a(".data) <+: l)
      ∧ (∃ q, (q = "a(".data ∨ q = indentOf (width "a(".data))
          ∧ (q ++ ("yyyy".data
              ++ (if 1 + 1 = (["xx".data, "yyyy".data, "zz".data] : List (List Char)).length
                  then ")".data else ",".data)))
              ∈ wrapJoinLines "a(".data ",".data ")".data
                  ["xx".data, "yyyy".data, "zz".data] (-1) 5)) := by
  refine ⟨⟨by decide, (c8_line_formatter "a(".data ",".data ")".data
      ["x".data, "y".data] (-1) 80).1 (by decide)⟩, by decide, ?_, ?_, ?_⟩
  · exact ((c8_line_formatter "a(".data ",".data ")".data
      ["xx".data, "yyyy".data, "zz".data] (-1) 5).2 (by decide)).1
  · exact ((c8_line_formatter "a(".data ",".data ")".data
      ["xx".data, "yyyy".data, "zz".data] (-1) 5).2 (by decide)).2.2.2.1
  · exact ((c8_line_formatter "a(".data ",".data ")".data
      ["xx".data, "yyyy".data, "zz".data] (-1) 5).2 (by decide)).2.2.2.2.2 1 "yyyy".data
      (by decide) (by decide) (by decide)
